import Mathlib

/-!
Shallow embedding of `src/script/imageHandler.js`, the single module of the
Professional-CV-Editor repository. The module keeps two module-level
variables (`profileImageData`, `profileImageType`, both initially `null`)
together with the DOM elements it reads and writes. We model JavaScript
nullable strings as `Option String` (with `none` for `null`/`undefined`),
JavaScript truthiness of such a value by `truthy` (the empty string and
`null` are falsy), the DOM as a record of optional elements, and each
exported function as a pure function on an explicit state, returning in
addition the observable effects it produces (alert messages, renderer
calls, console logs).
-/

namespace ImageHandler

/-- JavaScript truthiness of a nullable string: `null`/`undefined` and the
empty string are falsy, every other string is truthy. -/
def truthy : Option String → Bool
  | none => false
  | some s => !(s == "")

/-- A DOM element, restricted to the properties the module touches: whether
its class list contains the class "hidden", the image `src`, the text
content, and the input `value`. -/
structure UIElement where
  hidden : Bool
  src : Option String
  textContent : String
  value : String
  deriving Repr, DecidableEq

/-- The five DOM elements the module looks up by id ("image-preview",
"preview-img", "image-name", "remove-image", "profile-image"); each lookup
may return `null`, modelled by `Option`. -/
structure DOM where
  imagePreview : Option UIElement
  previewImg : Option UIElement
  imageName : Option UIElement
  removeBtn : Option UIElement
  fileInput : Option UIElement
  deriving Repr, DecidableEq

/-- The module state: the two image variables plus the DOM. -/
structure HandlerState where
  profileImageData : Option String
  profileImageType : Option String
  dom : DOM
  deriving Repr, DecidableEq

/-- The DOM in which none of the five elements exists. -/
def initDOM : DOM :=
  { imagePreview := none, previewImg := none, imageName := none,
    removeBtn := none, fileInput := none }

/-- The initial module state: both image variables are `null`. -/
def initState : HandlerState :=
  { profileImageData := none, profileImageType := none, dom := initDOM }

/-- A selected file as seen by `handleImageUpload`: its name, declared
content type, byte size, and the data URI that `FileReader.readAsDataURL`
would produce for it. -/
structure JSFile where
  name : String
  type : String
  size : Nat
  dataURL : String
  deriving Repr, DecidableEq

/-- `showImagePreview(fileName)` (source lines 48-60): updates the preview
elements if and only if all four referenced elements exist; otherwise it
does nothing at all. -/
def showImagePreview (fileName : String) (s : HandlerState) : HandlerState :=
  match s.dom.imagePreview, s.dom.previewImg, s.dom.imageName, s.dom.removeBtn with
  | some preview, some previewImg, some imageName, some removeBtn =>
      { s with dom := { s.dom with
          previewImg := some { previewImg with src := s.profileImageData },
          imageName := some { imageName with textContent := fileName },
          imagePreview := some { preview with hidden := false },
          removeBtn := some { removeBtn with hidden := false } } }
  | _, _, _, _ => s

/-- The outcome of the synchronous part of `handleImageUpload`: the state
(never changed synchronously), the `alert` messages issued, and the file
whose asynchronous `readAsDataURL` was started, if any. -/
structure UploadResult where
  state : HandlerState
  alerts : List String
  readStarted : Option JSFile
  deriving Repr, DecidableEq

/-- `handleImageUpload(event)` (source lines 14-43), synchronous part: no
file is a no-op; a non-image declared type or a size over 5 MiB alerts and
aborts; otherwise the asynchronous read is started. -/
def handleImageUpload (file : Option JSFile) (s : HandlerState) : UploadResult :=
  match file with
  | none => { state := s, alerts := [], readStarted := none }
  | some f =>
    if !(f.type.startsWith "image/") then
      { state := s, alerts := ["Please select a valid image file."], readStarted := none }
    else if f.size > 5 * 1024 * 1024 then
      { state := s, alerts := ["Image size must be less than 5MB."], readStarted := none }
    else
      { state := s, alerts := [], readStarted := some f }

/-- The `reader.onload` completion callback of `handleImageUpload` (source
lines 31-40): stores the data URI and the file's declared type, then shows
the preview. -/
def uploadOnLoad (f : JSFile) (s : HandlerState) : HandlerState :=
  let s1 := { s with profileImageData := some f.dataURL,
                     profileImageType := some f.type }
  showImagePreview f.name s1

/-- `removeProfileImage()` (source lines 67-84): clears both variables,
hides the preview and remove button and resets the file input value, for
each of those elements that exists. -/
def removeProfileImage (s : HandlerState) : HandlerState :=
  let s1 := { s with profileImageData := none, profileImageType := none }
  let d0 := s1.dom
  let d1 := match d0.imagePreview with
    | some p => { d0 with imagePreview := some { p with hidden := true } }
    | none => d0
  let d2 := match d1.removeBtn with
    | some b => { d1 with removeBtn := some { b with hidden := true } }
    | none => d1
  let d3 := match d2.fileInput with
    | some i => { d2 with fileInput := some { i with value := "" } }
    | none => d2
  { s1 with dom := d3 }

/-- One call to the renderer's `addImage`, with its six arguments. -/
structure AddImageCall where
  imageData : String
  format : String
  x : Int
  y : Int
  w : Int
  h : Int
  deriving Repr, DecidableEq

/-- The value returned by `addImageToPDF`. -/
structure PDFResult where
  width : Int
  height : Int
  hasImage : Bool
  deriving Repr, DecidableEq

/-- `addImageToPDF(doc, marginLeft, y)` (source lines 93-115). The renderer
is modelled by the predicate `docThrows`, telling for each call whether
`doc.addImage` throws on it. Returns the (unchanged) state, the result
object, the list of renderer calls issued, and the `console.error` log
lines. The `try`/`catch` makes the function total: a renderer exception is
caught and logged, never propagated, and the width and height were already
set to 70 before the call. -/
def addImageToPDF (docThrows : AddImageCall → Bool) (marginLeft y : Int)
    (s : HandlerState) : HandlerState × PDFResult × List AddImageCall × List String :=
  if truthy s.profileImageData then
    let call : AddImageCall :=
      { imageData := s.profileImageData.getD "",
        format := if truthy s.profileImageType then s.profileImageType.getD "" else "JPEG",
        x := marginLeft, y := y - 28, w := 70, h := 70 }
    let logs := if docThrows call then ["Error adding image to PDF:"] else []
    (s, { width := 70, height := 70, hasImage := true }, [call], logs)
  else
    (s, { width := 0, height := 0, hasImage := false }, [], [])

/-- `getImageBottomPosition(headerStartY, imageHeight, padding)` (source
lines 124-127). -/
def getImageBottomPosition (headerStartY imageHeight padding : Int)
    (s : HandlerState) : Int :=
  if truthy s.profileImageData then (headerStartY - 30) + imageHeight + padding
  else 0

/-- A saved CV data object, restricted to the two keys the module reads and
writes; an absent key is `none`. -/
structure SavedData where
  profileImage : Option String
  profileImageType : Option String
  deriving Repr, DecidableEq

/-- `loadImageFromData(obj)` (source lines 133-143): if `obj.profileImage`
is truthy, both variables are set from the saved object (the type copied
as-is, even when absent) and the preview is shown; otherwise a full
`removeProfileImage` runs. -/
def loadImageFromData (obj : SavedData) (s : HandlerState) : HandlerState :=
  if truthy obj.profileImage then
    let s1 := { s with profileImageData := obj.profileImage,
                       profileImageType := obj.profileImageType }
    showImagePreview "Loaded from save file" s1
  else
    removeProfileImage s

/-- `getImageData()` (source lines 149-154): pure read of the state into
the persistence shape. -/
def getImageData (s : HandlerState) : SavedData :=
  { profileImage := s.profileImageData, profileImageType := s.profileImageType }

/-- `hasImage()` (source lines 175-177): `!!profileImageData`. -/
def hasImage (s : HandlerState) : Bool :=
  truthy s.profileImageData

/-- `getImageDataString()` (source lines 183-185). -/
def getImageDataString (s : HandlerState) : Option String :=
  s.profileImageData

/-- `getImageType()` (source lines 191-193). -/
def getImageType (s : HandlerState) : Option String :=
  s.profileImageType

/-- The pairing invariant of the spec: the data field is absent exactly
when the media-type field is absent. -/
def pairedInv (s : HandlerState) : Prop :=
  s.profileImageData.isNone = s.profileImageType.isNone

/-- The observable cleared state produced by `removeProfileImage`: both
image fields cleared, preview and remove controls hidden and the
file-selection value reset wherever those elements exist. -/
def clearedObservables (s : HandlerState) : Prop :=
  s.profileImageData = none ∧ s.profileImageType = none ∧
  (∀ p, s.dom.imagePreview = some p → p.hidden = true) ∧
  (∀ b, s.dom.removeBtn = some b → b.hidden = true) ∧
  (∀ i, s.dom.fileInput = some i → i.value = "")

/-- A sample valid image file, used in witness instantiations. -/
def samplePNG : JSFile :=
  { name := "photo.png", type := "image/png", size := 2097152,
    dataURL := "data:image/png;base64,AAAA" }

theorem truthy_some_true {t : String} (h : t ≠ "") : truthy (some t) = true := by
  simp [truthy, h]

theorem showImagePreview_preserves_image (fileName : String) (s : HandlerState) :
    (showImagePreview fileName s).profileImageData = s.profileImageData ∧
    (showImagePreview fileName s).profileImageType = s.profileImageType := by
  unfold showImagePreview
  cases s.dom.imagePreview <;> cases s.dom.previewImg <;>
    cases s.dom.imageName <;> cases s.dom.removeBtn <;> simp

theorem removeProfileImage_fields (s : HandlerState) :
    (removeProfileImage s).profileImageData = none ∧
    (removeProfileImage s).profileImageType = none := by
  unfold removeProfileImage
  cases s.dom.imagePreview <;> cases s.dom.removeBtn <;>
    cases s.dom.fileInput <;> simp

theorem removeProfileImage_idem (s : HandlerState) :
    removeProfileImage (removeProfileImage s) = removeProfileImage s := by
  obtain ⟨pd, pt, a, b, c, d, e⟩ := s
  unfold removeProfileImage
  cases a <;> cases d <;> cases e <;> simp

theorem removeProfileImage_cleared (s : HandlerState) :
    clearedObservables (removeProfileImage s) := by
  obtain ⟨pd, pt, a, b, c, d, e⟩ := s
  unfold removeProfileImage clearedObservables
  cases a <;> cases d <;> cases e <;> simp

theorem addImageToPDF_state (docThrows : AddImageCall → Bool) (marginLeft y : Int)
    (s : HandlerState) : (addImageToPDF docThrows marginLeft y s).1 = s := by
  unfold addImageToPDF
  split <;> rfl

theorem handleImageUpload_state (file : Option JSFile) (s : HandlerState) :
    (handleImageUpload file s).state = s := by
  unfold handleImageUpload
  cases file with
  | none => rfl
  | some f => dsimp only; split <;> [rfl; skip]; split <;> rfl

/-- Claim C1, counterexample: from the initial state, `loadImageFromData`
on a saved object whose `profileImage` key is present (and truthy) but
whose `profileImageType` key is absent produces a state with the data
field present and the media-type field absent, violating the pairing
invariant that the claim asserts for this very input. -/
theorem C1_counterexample :
    ¬ pairedInv (loadImageFromData
        { profileImage := some "data:image/png;base64,AA", profileImageType := none }
        initState) := by
  unfold pairedInv
  decide

/-- Claim C1 (amended): the pairing invariant (data absent iff media type
absent) is preserved by upload completion, RemoveImage, the synchronous
part of Upload, AddToDocument (which leaves the state unchanged; likewise
ComputeBottomPosition, ExportForSave and the accessors, which do not touch
the state at all, covered by the final conjunct), and by LoadFromSaved for
every saved object that does not carry a truthy `profileImage` together
with an absent `profileImageType` — the single shape of input the
counterexample exhibits. -/
theorem C1_pairing_invariant (s : HandlerState) (f : JSFile) (obj : SavedData)
    (docThrows : AddImageCall → Bool) (marginLeft y : Int)
    (hs : pairedInv s)
    (hobj : truthy obj.profileImage = true → obj.profileImageType.isSome = true) :
    pairedInv (uploadOnLoad f s) ∧
    pairedInv (removeProfileImage s) ∧
    pairedInv ((handleImageUpload (some f) s).state) ∧
    pairedInv ((addImageToPDF docThrows marginLeft y s).1) ∧
    pairedInv (loadImageFromData obj s) ∧
    pairedInv s := by
  refine ⟨?_, ?_, ?_, ?_, ?_, hs⟩
  · unfold pairedInv uploadOnLoad
    rw [(showImagePreview_preserves_image _ _).1, (showImagePreview_preserves_image _ _).2]
    rfl
  · unfold pairedInv
    rw [(removeProfileImage_fields s).1, (removeProfileImage_fields s).2]
  · rw [handleImageUpload_state]; exact hs
  · rw [addImageToPDF_state]; exact hs
  · unfold loadImageFromData
    by_cases htr : truthy obj.profileImage = true
    · rw [if_pos htr]
      unfold pairedInv
      rw [(showImagePreview_preserves_image _ _).1, (showImagePreview_preserves_image _ _).2]
      dsimp only
      have h1 : obj.profileImage.isSome = true := by
        cases hpi : obj.profileImage with
        | none => rw [hpi] at htr; simp [truthy] at htr
        | some t => rfl
      have h2 := hobj htr
      obtain ⟨x, hx⟩ := Option.isSome_iff_exists.mp h1
      obtain ⟨z, hz⟩ := Option.isSome_iff_exists.mp h2
      rw [hx, hz]
      rfl
    · rw [if_neg htr]
      unfold pairedInv
      rw [(removeProfileImage_fields s).1, (removeProfileImage_fields s).2]

/-- Claim C1 witness: the amended invariant theorem applied at the initial
state, a sample file, a saved object with no image, a renderer that never
throws, and coordinates (10, 100). -/
theorem C1_pairing_invariant_witness :
    pairedInv initState ∧
    (truthy (SavedData.mk none none).profileImage = true →
      (SavedData.mk none none).profileImageType.isSome = true) ∧
    (pairedInv (uploadOnLoad samplePNG initState) ∧
     pairedInv (removeProfileImage initState) ∧
     pairedInv ((handleImageUpload (some samplePNG) initState).state) ∧
     pairedInv ((addImageToPDF (fun _ => false) 10 100 initState).1) ∧
     pairedInv (loadImageFromData (SavedData.mk none none) initState) ∧
     pairedInv initState) :=
  ⟨rfl, by intro h; exact absurd h (by decide),
   C1_pairing_invariant initState samplePNG (SavedData.mk none none)
     (fun _ => false) 10 100 rfl (by intro h; exact absurd h (by decide))⟩

/-- Claim C2, counterexample: in the state whose stored media type is the
present (but empty) string, the single placement call issued by
`addImageToPDF` carries the fallback format "JPEG", not the stored media
type, because the source tests `profileImageType || 'JPEG'` by truthiness
rather than by presence. -/
theorem C2_counterexample :
    (HandlerState.mk (some "d") (some "") initDOM).profileImageType = some "" ∧
    (addImageToPDF (fun _ => false) 10 100
        (HandlerState.mk (some "d") (some "") initDOM)).2.2.1 =
      [AddImageCall.mk "d" "JPEG" 10 72 70 70] ∧
    ("JPEG" : String) ≠ "" := by
  refine ⟨rfl, ?_, by decide⟩
  decide

/-- Claim C2 (amended): whenever an image is set, `addImageToPDF` issues
exactly one placement call at `(marginLeft, y − 28)` with width 70 and
height 70, using the stored media type when it is present and nonempty and
the fallback "JPEG" otherwise (i.e. when it is absent or the empty
string), and returns width 70, height 70, hasImage true. -/
theorem C2_addToDocument (s : HandlerState) (docThrows : AddImageCall → Bool)
    (marginLeft y : Int) (d : String)
    (hd : s.profileImageData = some d) (hne : d ≠ "") :
    (addImageToPDF docThrows marginLeft y s).2.1 = PDFResult.mk 70 70 true ∧
    (addImageToPDF docThrows marginLeft y s).2.2.1 =
      [AddImageCall.mk d
        (match s.profileImageType with
         | some t => if t = "" then "JPEG" else t
         | none => "JPEG")
        marginLeft (y - 28) 70 70] := by
  have htr : truthy s.profileImageData = true := by
    rw [hd]; exact truthy_some_true hne
  unfold addImageToPDF
  refine ⟨by simp [htr], ?_⟩
  simp only [htr, if_true]
  cases hpt : s.profileImageType with
  | none => simp [hd, truthy]
  | some t =>
    by_cases hte : t = ""
    · simp [hd, hte, truthy]
    · simp [hd, hte, truthy]

/-- Claim C2 witness: the amended theorem applied in a state holding a PNG
data URI with media type "image/png", at margin 10 and y 100: the call is
placed at (10, 72). -/
theorem C2_addToDocument_witness :
    (HandlerState.mk (some "data:image/png;base64,AAAA") (some "image/png") initDOM).profileImageData
      = some "data:image/png;base64,AAAA" ∧
    ("data:image/png;base64,AAAA" : String) ≠ "" ∧
    ((addImageToPDF (fun _ => false) 10 100
        (HandlerState.mk (some "data:image/png;base64,AAAA") (some "image/png") initDOM)).2.1
      = PDFResult.mk 70 70 true ∧
     (addImageToPDF (fun _ => false) 10 100
        (HandlerState.mk (some "data:image/png;base64,AAAA") (some "image/png") initDOM)).2.2.1
      = [AddImageCall.mk "data:image/png;base64,AAAA"
          (match (HandlerState.mk (some "data:image/png;base64,AAAA") (some "image/png") initDOM).profileImageType with
           | some t => if t = "" then "JPEG" else t
           | none => "JPEG")
          10 (100 - 28) 70 70]) :=
  ⟨rfl, by decide,
   C2_addToDocument (HandlerState.mk (some "data:image/png;base64,AAAA") (some "image/png") initDOM)
     (fun _ => false) 10 100 "data:image/png;base64,AAAA" rfl (by decide)⟩

/-- A sample oversized image file (10 MiB), used in witness instantiations. -/
def sampleBigFile : JSFile :=
  { name := "big.jpg", type := "image/jpeg", size := 10485760,
    dataURL := "data:image/jpeg;base64,AAAA" }

/-- Claim C3: when the selected file's declared type does not start with
"image/" or its size strictly exceeds 5 × 1024 × 1024 bytes, the upload
handler leaves the state exactly as it was, issues a user-facing alert,
and never starts the asynchronous read (so no later completion can change
the state either): a previously set image remains present. -/
theorem C3_upload_validation (s : HandlerState) (f : JSFile)
    (h : f.type.startsWith "image/" = false ∨ f.size > 5 * 1024 * 1024) :
    (handleImageUpload (some f) s).state = s ∧
    (handleImageUpload (some f) s).alerts ≠ [] ∧
    (handleImageUpload (some f) s).readStarted = none := by
  refine ⟨handleImageUpload_state _ _, ?_, ?_⟩ <;>
  · unfold handleImageUpload
    rcases h with h | h
    · simp [h]
    · by_cases htp : f.type.startsWith "image/" = true
      · simp [htp, h]
      · simp only [Bool.not_eq_true] at htp
        simp [htp]

/-- Claim C3 witness: the theorem applied to a 10 MiB image file uploaded
over a state that already holds an image; the state is returned untouched
and an alert is issued. -/
theorem C3_upload_validation_witness :
    (sampleBigFile.type.startsWith "image/" = false ∨
      sampleBigFile.size > 5 * 1024 * 1024) ∧
    ((handleImageUpload (some sampleBigFile)
        (HandlerState.mk (some "data:old") (some "image/png") initDOM)).state
      = HandlerState.mk (some "data:old") (some "image/png") initDOM ∧
     (handleImageUpload (some sampleBigFile)
        (HandlerState.mk (some "data:old") (some "image/png") initDOM)).alerts ≠ [] ∧
     (handleImageUpload (some sampleBigFile)
        (HandlerState.mk (some "data:old") (some "image/png") initDOM)).readStarted = none) :=
  ⟨Or.inr (by decide),
   C3_upload_validation (HandlerState.mk (some "data:old") (some "image/png") initDOM)
     sampleBigFile (Or.inr (by decide))⟩

/-- Claim C4: when an image is present (truthy data, media type set),
loading the object produced by `getImageData` — into any state — restores
exactly the data/media-type pair that was exported. -/
theorem C4_roundtrip (s s2 : HandlerState) (d t : String)
    (hd : s.profileImageData = some d) (hne : d ≠ "")
    (ht : s.profileImageType = some t) :
    (loadImageFromData (getImageData s) s2).profileImageData = some d ∧
    (loadImageFromData (getImageData s) s2).profileImageType = some t := by
  unfold loadImageFromData getImageData
  dsimp only
  rw [hd, ht, if_pos (truthy_some_true hne)]
  rw [(showImagePreview_preserves_image _ _).1, (showImagePreview_preserves_image _ _).2]
  exact ⟨rfl, rfl⟩

/-- Claim C4 witness: exporting a state holding a PNG image and loading the
export back into that same state restores the pair. -/
theorem C4_roundtrip_witness :
    (HandlerState.mk (some "data:image/png;base64,AAAA") (some "image/png") initDOM).profileImageData
      = some "data:image/png;base64,AAAA" ∧
    ("data:image/png;base64,AAAA" : String) ≠ "" ∧
    (HandlerState.mk (some "data:image/png;base64,AAAA") (some "image/png") initDOM).profileImageType
      = some "image/png" ∧
    ((loadImageFromData
        (getImageData (HandlerState.mk (some "data:image/png;base64,AAAA") (some "image/png") initDOM))
        (HandlerState.mk (some "data:image/png;base64,AAAA") (some "image/png") initDOM)).profileImageData
      = some "data:image/png;base64,AAAA" ∧
     (loadImageFromData
        (getImageData (HandlerState.mk (some "data:image/png;base64,AAAA") (some "image/png") initDOM))
        (HandlerState.mk (some "data:image/png;base64,AAAA") (some "image/png") initDOM)).profileImageType
      = some "image/png") :=
  ⟨rfl, by decide, rfl,
   C4_roundtrip _ _ "data:image/png;base64,AAAA" "image/png" rfl (by decide) rfl⟩

/-- Claim C5: when an image is set and the renderer's add-image operation
throws (on every call), `addImageToPDF` catches the failure, logs it to the
console, and still returns normally — the embedding is a total function, so
nothing propagates — with the attempted dimensions width 70, height 70 and
hasImage true, not zeroed dimensions. -/
theorem C5_renderer_failure (s : HandlerState) (docThrows : AddImageCall → Bool)
    (marginLeft y : Int)
    (h : hasImage s = true) (hthrow : ∀ c, docThrows c = true) :
    (addImageToPDF docThrows marginLeft y s).2.1 = PDFResult.mk 70 70 true ∧
    (addImageToPDF docThrows marginLeft y s).2.2.2 = ["Error adding image to PDF:"] := by
  unfold hasImage at h
  unfold addImageToPDF
  simp [h, hthrow]

/-- Claim C5 witness: the theorem applied to a state holding a PNG image
and the renderer that always throws, at margin 10 and y 100. -/
theorem C5_renderer_failure_witness :
    hasImage (HandlerState.mk (some "data:image/png;base64,AAAA") (some "image/png") initDOM) = true ∧
    ((addImageToPDF (fun _ => true) 10 100
        (HandlerState.mk (some "data:image/png;base64,AAAA") (some "image/png") initDOM)).2.1
      = PDFResult.mk 70 70 true ∧
     (addImageToPDF (fun _ => true) 10 100
        (HandlerState.mk (some "data:image/png;base64,AAAA") (some "image/png") initDOM)).2.2.2
      = ["Error adding image to PDF:"]) :=
  ⟨by decide,
   C5_renderer_failure (HandlerState.mk (some "data:image/png;base64,AAAA") (some "image/png") initDOM)
     (fun _ => true) 10 100 (by decide) (fun _ => rfl)⟩

/-- Claim C6: `getImageBottomPosition` returns 0 whenever no image is set,
regardless of its arguments, and `(headerStartY − 30) + imageHeight +
padding` whenever an image is set; by its type it is a pure function of
its three arguments and the image-presence flag of the state. -/
theorem C6_bottom_position (s : HandlerState) (headerStartY imageHeight padding : Int) :
    (hasImage s = false → getImageBottomPosition headerStartY imageHeight padding s = 0) ∧
    (hasImage s = true → getImageBottomPosition headerStartY imageHeight padding s =
      (headerStartY - 30) + imageHeight + padding) := by
  unfold hasImage getImageBottomPosition
  constructor <;> intro h <;> simp [h]

/-- Claim C6 witness: with an image present, arguments (100, 70, 5) give
100 − 30 + 70 + 5 = 145. -/
theorem C6_bottom_position_witness :
    hasImage (HandlerState.mk (some "data:image/png;base64,AAAA") (some "image/png") initDOM) = true ∧
    getImageBottomPosition 100 70 5
      (HandlerState.mk (some "data:image/png;base64,AAAA") (some "image/png") initDOM) = 145 :=
  ⟨by decide,
   ((C6_bottom_position (HandlerState.mk (some "data:image/png;base64,AAAA") (some "image/png") initDOM)
      100 70 5).2 (by decide)).trans (by decide)⟩

/-- Claim C7: when no image is set, `addImageToPDF` returns the unchanged
state together with width 0, height 0, hasImage false, issues no renderer
call, and logs nothing. -/
theorem C7_no_image (s : HandlerState) (docThrows : AddImageCall → Bool)
    (marginLeft y : Int) (h : hasImage s = false) :
    addImageToPDF docThrows marginLeft y s =
      (s, PDFResult.mk 0 0 false, ([] : List AddImageCall), ([] : List String)) := by
  unfold hasImage at h
  unfold addImageToPDF
  simp [h]

/-- Claim C7 witness: the theorem applied at the initial state with an
always-throwing renderer and arguments (10, 100). -/
theorem C7_no_image_witness :
    hasImage initState = false ∧
    addImageToPDF (fun _ => true) 10 100 initState =
      (initState, PDFResult.mk 0 0 false, ([] : List AddImageCall), ([] : List String)) :=
  ⟨by decide, C7_no_image initState (fun _ => true) 10 100 (by decide)⟩

/-- Claim C8: `removeProfileImage` is idempotent — a second call yields
exactly the same state as one call — and every call, from any starting
state (in particular one with no image set), produces the cleared
observable state: both image fields cleared, preview and remove controls
hidden and the file-selection value reset wherever those elements exist. -/
theorem C8_remove_idempotent (s : HandlerState) :
    removeProfileImage (removeProfileImage s) = removeProfileImage s ∧
    clearedObservables (removeProfileImage s) :=
  ⟨removeProfileImage_idem s, removeProfileImage_cleared s⟩

/-- Claim C8 witness: the theorem applied at a state holding an image, with
the preview, remove button and file input all present and visible. -/
theorem C8_remove_idempotent_witness :
    removeProfileImage (removeProfileImage
      (HandlerState.mk (some "data:image/png;base64,AAAA") (some "image/png")
        (DOM.mk (some (UIElement.mk false none "" ""))
          (some (UIElement.mk false (some "data:image/png;base64,AAAA") "" ""))
          (some (UIElement.mk false none "photo.png" ""))
          (some (UIElement.mk false none "" ""))
          (some (UIElement.mk false none "" "photo.png")))))
    = removeProfileImage
      (HandlerState.mk (some "data:image/png;base64,AAAA") (some "image/png")
        (DOM.mk (some (UIElement.mk false none "" ""))
          (some (UIElement.mk false (some "data:image/png;base64,AAAA") "" ""))
          (some (UIElement.mk false none "photo.png" ""))
          (some (UIElement.mk false none "" ""))
          (some (UIElement.mk false none "" "photo.png")))) ∧
    clearedObservables (removeProfileImage
      (HandlerState.mk (some "data:image/png;base64,AAAA") (some "image/png")
        (DOM.mk (some (UIElement.mk false none "" ""))
          (some (UIElement.mk false (some "data:image/png;base64,AAAA") "" ""))
          (some (UIElement.mk false none "photo.png" ""))
          (some (UIElement.mk false none "" ""))
          (some (UIElement.mk false none "" "photo.png"))))) :=
  C8_remove_idempotent
    (HandlerState.mk (some "data:image/png;base64,AAAA") (some "image/png")
      (DOM.mk (some (UIElement.mk false none "" ""))
        (some (UIElement.mk false (some "data:image/png;base64,AAAA") "" ""))
        (some (UIElement.mk false none "photo.png" ""))
        (some (UIElement.mk false none "" ""))
        (some (UIElement.mk false none "" "photo.png"))))

/-- Claim C9: loading a saved object that carries no `profileImage` key,
from any state in which an image is set, is literally the same operation
as `removeProfileImage`: both image fields are cleared and the associated
UI is hidden. -/
theorem C9_load_missing_clears (s : HandlerState) (obj : SavedData)
    (hprev : hasImage s = true) (hobj : obj.profileImage = none) :
    loadImageFromData obj s = removeProfileImage s ∧
    clearedObservables (loadImageFromData obj s) := by
  have he : loadImageFromData obj s = removeProfileImage s := by
    unfold loadImageFromData
    rw [hobj]
    simp [truthy]
  refine ⟨he, ?_⟩
  rw [he]
  exact removeProfileImage_cleared s

/-- Claim C9 witness: the theorem applied at a state holding an image with
all UI elements present, loading the empty saved object. -/
theorem C9_load_missing_clears_witness :
    hasImage (HandlerState.mk (some "data:image/png;base64,AAAA") (some "image/png")
      (DOM.mk (some (UIElement.mk false none "" ""))
        (some (UIElement.mk false (some "data:image/png;base64,AAAA") "" ""))
        (some (UIElement.mk false none "photo.png" ""))
        (some (UIElement.mk false none "" ""))
        (some (UIElement.mk false none "" "photo.png")))) = true ∧
    (SavedData.mk none none).profileImage = none ∧
    (loadImageFromData (SavedData.mk none none)
      (HandlerState.mk (some "data:image/png;base64,AAAA") (some "image/png")
        (DOM.mk (some (UIElement.mk false none "" ""))
          (some (UIElement.mk false (some "data:image/png;base64,AAAA") "" ""))
          (some (UIElement.mk false none "photo.png" ""))
          (some (UIElement.mk false none "" ""))
          (some (UIElement.mk false none "" "photo.png"))))
      = removeProfileImage
        (HandlerState.mk (some "data:image/png;base64,AAAA") (some "image/png")
          (DOM.mk (some (UIElement.mk false none "" ""))
            (some (UIElement.mk false (some "data:image/png;base64,AAAA") "" ""))
            (some (UIElement.mk false none "photo.png" ""))
            (some (UIElement.mk false none "" ""))
            (some (UIElement.mk false none "" "photo.png")))) ∧
     clearedObservables (loadImageFromData (SavedData.mk none none)
        (HandlerState.mk (some "data:image/png;base64,AAAA") (some "image/png")
          (DOM.mk (some (UIElement.mk false none "" ""))
            (some (UIElement.mk false (some "data:image/png;base64,AAAA") "" ""))
            (some (UIElement.mk false none "photo.png" ""))
            (some (UIElement.mk false none "" ""))
            (some (UIElement.mk false none "" "photo.png")))))) :=
  ⟨by decide, rfl,
   C9_load_missing_clears
     (HandlerState.mk (some "data:image/png;base64,AAAA") (some "image/png")
       (DOM.mk (some (UIElement.mk false none "" ""))
         (some (UIElement.mk false (some "data:image/png;base64,AAAA") "" ""))
         (some (UIElement.mk false none "photo.png" ""))
         (some (UIElement.mk false none "" ""))
         (some (UIElement.mk false none "" "photo.png"))))
     (SavedData.mk none none) (by decide) rfl⟩

/-- Claim C10: image presence is truthiness of the data field, not mere
presence: with the stored data equal to the (present) empty string,
`hasImage` is false, `addImageToPDF` returns zero dimensions without any
renderer call, and `getImageBottomPosition` returns 0; moreover
`loadImageFromData` on a saved object whose `profileImage` is the empty
string takes the clearing branch, acting exactly as `removeProfileImage`. -/
theorem C10_truthiness (s : HandlerState) (docThrows : AddImageCall → Bool)
    (marginLeft y headerStartY imageHeight padding : Int)
    (h : s.profileImageData = some "") :
    hasImage s = false ∧
    addImageToPDF docThrows marginLeft y s =
      (s, PDFResult.mk 0 0 false, ([] : List AddImageCall), ([] : List String)) ∧
    getImageBottomPosition headerStartY imageHeight padding s = 0 ∧
    (∀ obj : SavedData, obj.profileImage = some "" →
      ∀ s2, loadImageFromData obj s2 = removeProfileImage s2) := by
  have hf : truthy s.profileImageData = false := by rw [h]; rfl
  refine ⟨hf, ?_, ?_, ?_⟩
  · unfold addImageToPDF
    simp [hf]
  · unfold getImageBottomPosition
    simp [hf]
  · intro obj hobj s2
    unfold loadImageFromData
    rw [hobj]
    simp [truthy]

/-- Claim C10 witness: the first three conclusions of the theorem at the
state whose data field is the empty string, with renderer coordinates
(10, 100) and layout arguments (100, 70, 5). -/
theorem C10_truthiness_witness :
    (HandlerState.mk (some "") none initDOM).profileImageData = some "" ∧
    hasImage (HandlerState.mk (some "") none initDOM) = false ∧
    addImageToPDF (fun _ => false) 10 100 (HandlerState.mk (some "") none initDOM) =
      (HandlerState.mk (some "") none initDOM, PDFResult.mk 0 0 false,
        ([] : List AddImageCall), ([] : List String)) ∧
    getImageBottomPosition 100 70 5 (HandlerState.mk (some "") none initDOM) = 0 :=
  ⟨rfl,
   (C10_truthiness (HandlerState.mk (some "") none initDOM) (fun _ => false)
     10 100 100 70 5 rfl).1,
   (C10_truthiness (HandlerState.mk (some "") none initDOM) (fun _ => false)
     10 100 100 70 5 rfl).2.1,
   (C10_truthiness (HandlerState.mk (some "") none initDOM) (fun _ => false)
     10 100 100 70 5 rfl).2.2.1⟩

end ImageHandler
